import Mathlib

/-!
Shallow embedding of the EvolveRFC discussion core (src/evolve_rfc) in Lean 4.

Conventions used throughout:
* Python `datetime` values are modelled as opaque `Nat` tags; `isoformat` /
  `fromisoformat` form a bijection on datetimes, so serialization of a
  timestamp is modelled as the identity on the tag.
* Python dicts with a fixed key set (`vote_count`, argument records, the
  `human_decision` dict) are modelled as structures; the string-keyed
  role-count dict of the tool layer is modelled as an association list.
* Functions that can raise (`ValueError`, `AttributeError`) or that return an
  error message instead of mutating are modelled with `Except String`.
* `uuid.uuid4()` is modelled by an explicitly supplied identifier argument;
  no claim below depends on the identifier values.
* Chinese string literals are kept exactly as in the source
  ("赞成" = for, "反对" = against, "弃权" = abstain, "终止" = terminate).
-/

/-- `ViewpointStatus` enum from core/state.py (values "active", "resolved", "rejected"). -/
inductive ViewpointStatus where
  | active
  | resolved
  | rejected
deriving DecidableEq, Repr

/-- `.value` of the `ViewpointStatus` enum. -/
def ViewpointStatus.value : ViewpointStatus → String
  | .active => "active"
  | .resolved => "resolved"
  | .rejected => "rejected"

/-- The vote-count dict `{"赞成": n, "反对": n, "弃权": n}` of a viewpoint.
Every vote-count dict built by the code has exactly these three keys. -/
structure VoteCount where
  forV : Nat
  againstV : Nat
  abstainV : Nat
deriving DecidableEq, Repr

/-- An entry of `Viewpoint.arguments`: the dict
`\x7bactor, content, stance, round\x7d` appended by `vote_viewpoint` and by the
`respond_to_viewpoint` sync in `parallel_review_node`. -/
structure ArgumentRecord where
  actor : String
  content : String
  stance : String
  round : Nat
deriving DecidableEq, Repr

/-- `Viewpoint` dataclass from core/state.py. -/
structure Viewpoint where
  id : String
  content : String
  evidence : List String
  proposer : String
  status : ViewpointStatus
  voteCount : VoteCount
  createdRound : Nat
  resolvedRound : Option Nat
  solutions : List String
  arguments : List ArgumentRecord
  proposedSolution : Option String
deriving DecidableEq, Repr

/-- `EventType` enum from core/state.py. -/
inductive EventType where
  | ROLE_REVIEW
  | VOTE
  | HUMAN_INTERVENTION
  | HUMAN_DECISION
  | CONSENSUS_REACHED
  | CLARIFICATION
  | ROUND_COMPLETE
deriving DecidableEq, Repr

/-- `.value` of the `EventType` enum. -/
def EventType.value : EventType → String
  | .ROLE_REVIEW => "role_review"
  | .VOTE => "vote"
  | .HUMAN_INTERVENTION => "human"
  | .HUMAN_DECISION => "human_decision"
  | .CONSENSUS_REACHED => "consensus"
  | .CLARIFICATION => "clarification"
  | .ROUND_COMPLETE => "round_complete"

/-- The `metadata` dict of a `DiscussionEvent`.  The only key the core logic
reads is `"round"`; the remaining key/value pairs are carried opaquely in
`rest` (serialization passes the whole dict through unchanged). -/
structure EventMetadata where
  round : Option Nat
  rest : List (String × String)
deriving DecidableEq, Repr

/-- `DiscussionEvent` dataclass from core/state.py.  `timestamp` is the opaque
datetime tag (see the header comment). -/
structure DiscussionEvent where
  eventType : EventType
  actor : String
  content : String
  timestamp : Nat
  metadata : EventMetadata
  voteResult : Option String
  targetIssue : Option String
  humanAction : Option String
deriving DecidableEq, Repr

/-- The `human_decision` dict stored in the state: the router and the edges
only ever read its `"action"` key (`none` models an absent key). -/
structure HumanDecision where
  action : Option String
deriving DecidableEq, Repr

/-- One entry of `rfc_final_vote_results`: the dict
`\x7bvoter, issue_id, vote, reason\x7d` built by the final-vote node. -/
structure FinalVoteRecord where
  voter : String
  issueId : String
  vote : String
  reason : String
deriving DecidableEq, Repr

/-- `DiscussionState` TypedDict from core/state.py (all keys present). -/
structure DiscussionState where
  events : List DiscussionEvent
  rfcContent : String
  modifiedRfcContent : Option String
  maxRounds : Nat
  currentRound : Nat
  currentFocus : String
  consensusPoints : List String
  openIssues : List String
  viewpointPool : List Viewpoint
  resolvedViewpoints : List Viewpoint
  awaitingHumanInput : Bool
  humanDecision : Option HumanDecision
  lastHumanAction : Option String
  timeoutCount : Nat
  workflowStatus : String
  rfcModificationApplied : Bool
  rfcFinalVoteResults : Option (List FinalVoteRecord)
  rfcFinalVotePassed : Option Bool
deriving DecidableEq, Repr

/-- `create_initial_state` from core/state.py. -/
def createInitialState (rfcContent : String) (maxRounds : Nat) : DiscussionState where
  events := []
  rfcContent := rfcContent
  modifiedRfcContent := none
  maxRounds := maxRounds
  currentRound := 1
  currentFocus := ""
  consensusPoints := []
  openIssues := []
  viewpointPool := []
  resolvedViewpoints := []
  awaitingHumanInput := false
  humanDecision := none
  lastHumanAction := none
  timeoutCount := 0
  workflowStatus := "讨论中"
  rfcModificationApplied := false
  rfcFinalVoteResults := none
  rfcFinalVotePassed := none

/-- `add_event` from core/state.py: new state with the event appended, every
other field copied over. -/
def addEvent (state : DiscussionState) (event : DiscussionEvent) : DiscussionState :=
  { state with events := state.events ++ [event] }

/-- `get_latest_events` from core/state.py: the last `count` events. -/
def getLatestEvents (state : DiscussionState) (count : Nat) : List DiscussionEvent :=
  state.events.drop (state.events.length - count)

/-- `VIEWPOINT_POOL_LIMIT` from core/state.py. -/
def VIEWPOINT_POOL_LIMIT : Nat := 3

/-- `can_add_viewpoint` from core/state.py. -/
def canAddViewpoint (state : DiscussionState) : Bool :=
  state.viewpointPool.length < VIEWPOINT_POOL_LIMIT

/-- `create_viewpoint` from core/state.py.  The `uuid.uuid4()[:8]` draw is
modelled by the explicit `id` argument. -/
def createViewpoint (id : String) (content : String) (evidence : List String)
    (proposer : String) (createdRound : Nat) : Viewpoint where
  id := id
  content := content
  evidence := evidence
  proposer := proposer
  status := ViewpointStatus.active
  voteCount := { forV := 0, againstV := 0, abstainV := 0 }
  createdRound := createdRound
  resolvedRound := none
  solutions := []
  arguments := []
  proposedSolution := none

/-- `add_viewpoint_to_pool` from core/state.py: raises `ValueError` when the
pool is full (modelled as `Except.error`), otherwise returns a new state with
the viewpoint appended to the pool. -/
def addViewpointToPool (state : DiscussionState) (viewpoint : Viewpoint) :
    Except String DiscussionState :=
  if ¬ canAddViewpoint state then
    Except.error "观点池已满（最多3个观点）"
  else
    Except.ok { state with viewpointPool := state.viewpointPool ++ [viewpoint] }

/-- `check_viewpoint_resolved` from core/state.py: non-ACTIVE viewpoints count
as resolved; an ACTIVE one is resolved iff 赞成 > 反对 and 赞成 > total // 2. -/
def checkViewpointResolved (viewpoint : Viewpoint) (totalReviewers : Nat) : Bool :=
  if viewpoint.status ≠ ViewpointStatus.active then
    true
  else
    viewpoint.voteCount.againstV < viewpoint.voteCount.forV &&
      totalReviewers / 2 < viewpoint.voteCount.forV

/-- `resolve_viewpoint` from core/state.py (with its default arguments
`status = RESOLVED`, `solution = None` made explicit).  The constructor call
omits `proposed_solution`, so that field resets to `None`. -/
def resolveViewpoint (viewpoint : Viewpoint) (resolvedRound : Nat)
    (status : ViewpointStatus) (solution : Option String) : Viewpoint where
  id := viewpoint.id
  content := viewpoint.content
  evidence := viewpoint.evidence
  proposer := viewpoint.proposer
  status := status
  voteCount := viewpoint.voteCount
  createdRound := viewpoint.createdRound
  resolvedRound := some resolvedRound
  solutions := viewpoint.solutions ++ (match solution with | some s => [s] | none => [])
  arguments := viewpoint.arguments
  proposedSolution := none

/-- `resolve_active_viewpoints` from core/state.py: with `reviewers_count = 4`
hard-coded, partition the pool into still-active viewpoints and newly resolved
ones (stamped with `resolved_round = current_round`) appended to the resolved
list. -/
def resolveActiveViewpoints (state : DiscussionState) (currentRound : Nat) : DiscussionState :=
  let reviewersCount : Nat := 4
  let stillActive := state.viewpointPool.filter
    (fun vp => ¬ checkViewpointResolved vp reviewersCount)
  let newlyResolved := (state.viewpointPool.filter
    (fun vp => checkViewpointResolved vp reviewersCount)).map
    (fun vp => resolveViewpoint vp currentRound ViewpointStatus.resolved none)
  { state with
      viewpointPool := stillActive
      resolvedViewpoints := state.resolvedViewpoints ++ newlyResolved }

/-!
## Router (core/router.py)

`WorkflowRouter._build_rules` returns five rules with priorities 1..5;
`route` sorts them by ascending priority (Python's stable sort is the
identity here, the list is already priority-ascending) and returns the target
of the first rule whose condition holds.  Rule 5 is unconditional, so the
trailing `return RouteTarget.CONTINUE` is unreachable.

The rule-1 condition is `s.get("human_decision", \x7b\x7d).get("action") == "终止"`.
The `DiscussionState` TypedDict always carries the `human_decision` key, so
`s.get` returns the stored value; when that value is `None` (as in
`create_initial_state`), `None.get("action")` raises `AttributeError`,
modelled as `Except.error`.
-/

/-- `RouteTarget` enum from core/router.py. -/
inductive RouteTarget where
  | CONTINUE
  | HUMAN_INTERVENTION
  | ROUND_SUMMARY
  | FINAL_REPORT
  | EMERGENCY_STOP
deriving DecidableEq, Repr

/-- `WorkflowRouter.route` with the router's own `max_rounds` parameter
(`routerMaxRounds`, default 10 in `WorkflowRouter.__init__`; the global
`default_router` uses that default).  Rules are evaluated in ascending
priority order; the first match wins. -/
def route (routerMaxRounds : Nat) (s : DiscussionState) : Except String RouteTarget :=
  match s.humanDecision with
  | none => Except.error "AttributeError"
  | some d =>
    if d.action == some "终止" then Except.ok RouteTarget.EMERGENCY_STOP
    else if s.awaitingHumanInput then Except.ok RouteTarget.HUMAN_INTERVENTION
    else if routerMaxRounds ≤ s.currentRound then Except.ok RouteTarget.FINAL_REPORT
    else if s.openIssues.isEmpty then Except.ok RouteTarget.FINAL_REPORT
    else Except.ok RouteTarget.ROUND_SUMMARY

/-- Python truthiness of an `Optional[str]`: `None` and `""` are falsy. -/
def truthyOptStr : Option String → Bool
  | some v => v ≠ ""
  | none => false

/-- `WorkflowRouter.should_human_intervene` with the default
`deadlock_opposition_ratio = 0.3`:  among ALL events of type VOTE (the whole
log, not restricted to the current round) with a truthy `vote_result`, true
iff 反对-count / total > 0.3.  The float comparison `(o / t) > 0.3` is
modelled as the exact rational comparison `10 * o > 3 * t`, which agrees with
the binary64 computation on all realistic vote tallies. -/
def shouldHumanIntervene (s : DiscussionState) : Bool :=
  let votes := s.events.filter (fun e => e.eventType.value == "vote")
  if votes.isEmpty then false
  else
    let voteResults := votes.filterMap
      (fun e => match e.voteResult with
        | some v => if v ≠ "" then some v else none
        | none => none)
    if voteResults.isEmpty then false
    else
      let oppositionCount := voteResults.countP (fun v => v == "反对")
      let totalVotes := voteResults.length
      3 * totalVotes < 10 * oppositionCount

/-- The stance list that `should_human_intervene` tallies: the truthy
`vote_result`s of ALL events of type VOTE in the log (named here to state
its specification). -/
def allCastStances (s : DiscussionState) : List String :=
  (s.events.filter (fun e => e.eventType.value == "vote")).filterMap
    (fun e => match e.voteResult with
      | some v => if v ≠ "" then some v else none
      | none => none)

/-!
## Approval policy (shared/debate.py `check_approval`)

Python's early-return cascade is flattened into an if-chain with identical
control flow: the PASS branch fires iff `yes >= yes_votes_needed` and
(`require_yes_over_no` is false or `yes > no`); only when it does not fire
are the eliminate / max-rounds / continue checks reached, in that order.
-/

/-- Return value of `check_approval`: the dict
`\x7bapproved, finished, reason\x7d`. -/
structure ApprovalResult where
  approved : Bool
  finished : Bool
  reason : String
deriving DecidableEq, Repr

/-- `check_approval` from shared/debate.py, defaults
(`yes_votes_needed = 2`, `no_votes_limit = 2`, `require_yes_over_no = True`)
passed explicitly. -/
def checkApproval (yes no : Nat) (maxRounds currentRound : Nat)
    (yesVotesNeeded noVotesLimit : Nat) (requireYesOverNo : Bool) : ApprovalResult :=
  if yesVotesNeeded ≤ yes && (!requireYesOverNo || no < yes) then
    { approved := true, finished := true, reason := "通过审核" }
  else if noVotesLimit ≤ no then
    { approved := false, finished := true, reason := "反对票过多" }
  else if maxRounds ≤ currentRound then
    { approved := false, finished := true, reason := "达到最大轮次" }
  else
    { approved := false, finished := false, reason := "继续辩论" }

/-!
## Viewpoint-proposal tool (shared/tools.py `propose_viewpoint`)

The tool reads and writes module-level context
(`_viewpoints_from_tool`, `_role_viewpoint_counts`, `_current_role_for_tool`),
modelled here as an explicit `ToolContext` record.  Every failure path
returns an error message string and leaves the context untouched
(`Except.error`); the success path appends the proposal and bumps the
per-role counter.
-/

/-- One entry of `_viewpoints_from_tool`: the dict
`\x7bcontent, evidence, stance, proposer\x7d`. -/
structure ProposedViewpoint where
  content : String
  evidence : List String
  stance : String
  proposer : String
deriving DecidableEq, Repr

/-- The module-level tool context of shared/tools.py. -/
structure ToolContext where
  viewpointsFromTool : List ProposedViewpoint
  roleViewpointCounts : List (String × Nat)
  currentRole : Option String
deriving DecidableEq, Repr

/-- Python's `str.strip()`: drop leading and trailing whitespace (internal
whitespace is kept).  Implemented over the character list so that it
evaluates by kernel reduction. -/
def pyStrip (s : String) : String :=
  String.mk (((s.toList.dropWhile Char.isWhitespace).reverse.dropWhile
    Char.isWhitespace).reverse)

/-- `dict.get(key, 0)` on the role-count dict. -/
def lookupCount : List (String × Nat) → String → Nat
  | [], _ => 0
  | p :: rest, key => if p.1 == key then p.2 else lookupCount rest key

/-- `dict[key] = value` on the role-count dict: replace the first binding of
`key`, or append a fresh one. -/
def setCount (counts : List (String × Nat)) (key : String) (value : Nat) :
    List (String × Nat) :=
  match counts with
  | [] => [(key, value)]
  | p :: rest =>
    if p.1 == key then (key, value) :: rest else p :: setCount rest key value

/-- `propose_viewpoint` from shared/tools.py.  Checks, in source order:
content truthy (a non-string content cannot arise in the typed model),
`len(content.strip()) >= 5`, the per-role per-round cap, stance validity,
and evidence non-emptiness; on success appends
`\x7bcontent, evidence[:3], stance, proposer\x7d` and bumps the role counter.
Note: the tool itself performs NO pool-capacity check. -/
def proposeViewpoint (ctx : ToolContext) (content : String)
    (evidence : List String) (stance : String) :
    Except String (ToolContext × String) :=
  if content = "" then
    Except.error "错误: content 必须是字符串类型"
  else if (pyStrip content).length < 5 then
    Except.error "错误: content 内容太短，请提供更详细的问题描述"
  else
    let roleName := ctx.currentRole.getD "unknown"
    if 1 ≤ lookupCount ctx.roleViewpointCounts roleName then
      Except.error "错误: 每个角色每轮最多提出1个新观点"
    else if !(stance == "赞成" || stance == "反对" || stance == "弃权") then
      Except.error "立场必须是以下之一：赞成、反对、弃权"
    else if evidence.isEmpty then
      Except.error "论据必须是列表格式，例如：[\"论据1\", \"论据2\"]"
    else
      let newCount := lookupCount ctx.roleViewpointCounts roleName + 1
      Except.ok
        ({ ctx with
            viewpointsFromTool := ctx.viewpointsFromTool ++
              [{ content := content, evidence := evidence.take 3,
                 stance := stance, proposer := roleName }],
            roleViewpointCounts := setCount ctx.roleViewpointCounts roleName newCount },
         "观点已添加到观点池：" ++ content.take 50 ++ "...")

/-!
## Round orchestration (workflow/nodes.py `parallel_review_node`)

The sequential role loop and its cooperative stop are modelled as follows:
the per-role outputs of the external review capability (including the
error results synthesised by the `except` branch) are supplied as a list of
`ReviewResult`s in role-invocation order, and the shared stop flag
`_review_running_var` is modelled by `stopSignal i`, the value observed by
the check that runs AFTER role `i`'s result has been appended to
`review_results`.  When a stop is observed the node saves a checkpoint of
`state` — the round-entry state, the local `review_results` are not merged —
and returns that same `state`.
-/

/-- A `tool_calls` entry of a review result; `arguments` projected to the
fields the node reads for `respond_to_viewpoint`. -/
structure ToolCall where
  tool : String
  viewpointId : String
  stance : String
  response : String
deriving DecidableEq, Repr

/-- `new_viewpoints` entry of a review result: the dict with
`content` and `evidence`. -/
structure VpData where
  content : String
  evidence : List String
deriving DecidableEq, Repr

/-- One element of `review_results` in `parallel_review_node`. -/
structure ReviewResult where
  role : String
  content : String
  vote : Option String
  newViewpoints : List VpData
  toolCalls : List ToolCall
deriving DecidableEq, Repr

/-- The role loop of `parallel_review_node`: results accumulate one by one;
after appending result `i` the stop flag is checked, and on stop the loop is
abandoned (`none`).  `some rs` means all roles completed with results `rs`. -/
def reviewLoop (stopSignal : Nat → Bool) :
    Nat → List ReviewResult → List ReviewResult → Option (List ReviewResult)
  | _, acc, [] => some acc
  | i, acc, r :: rest =>
    let acc' := acc ++ [r]
    if stopSignal i then none else reviewLoop stopSignal (i + 1) acc' rest

/-- The `ROLE_REVIEW` event built for each review result (metadata
`\x7b"round": current_round\x7d`, `vote_result` from the result). -/
def reviewEvent (result : ReviewResult) (currentRound : Nat) (now : Nat) :
    DiscussionEvent where
  eventType := EventType.ROLE_REVIEW
  actor := result.role
  content := result.content
  timestamp := now
  metadata := { round := some currentRound, rest := [] }
  voteResult := result.vote
  targetIssue := none
  humanAction := none

/-- The admission loop of `parallel_review_node` ("收集所有新观点"):
per result, skip if the role already contributed this round; break out of
the whole loop once `current_pool_size + len(new_viewpoints) >= 3`; skip
results with no candidate viewpoint; otherwise admit ONLY the first
candidate (`vp_data_list[0]`) and mark the role.  The uuid of each admitted
viewpoint is modelled as `""`. -/
def collectLoop (poolSize currentRound : Nat) :
    List ReviewResult → List (String × Nat) → List Viewpoint → List Viewpoint
  | [], _, acc => acc
  | r :: rest, counts, acc =>
    if 1 ≤ lookupCount counts r.role then
      collectLoop poolSize currentRound rest counts acc
    else if VIEWPOINT_POOL_LIMIT ≤ poolSize + acc.length then
      acc
    else
      match r.newViewpoints with
      | [] => collectLoop poolSize currentRound rest counts acc
      | vpData :: _ =>
        collectLoop poolSize currentRound rest (setCount counts r.role 1)
          (acc ++ [createViewpoint "" vpData.content vpData.evidence r.role currentRound])

/-- Entry point of the admission loop with empty role counter and empty
accumulator, as in the source. -/
def collectNewViewpoints (poolSize currentRound : Nat)
    (results : List ReviewResult) : List Viewpoint :=
  collectLoop poolSize currentRound results [] []

/-- The inner update of the `respond_to_viewpoint` sync: find the FIRST pool
entry with the given id, append an argument record, bump the matching vote
counter (`if stance in new_vote_count`), and rebuild the viewpoint — the
rebuild omits `proposed_solution`, resetting it to `None`. -/
def applyResponse (role viewpointId stance response : String) (currentRound : Nat) :
    List Viewpoint → List Viewpoint
  | [] => []
  | vp :: rest =>
    if vp.id == viewpointId then
      { vp with
          voteCount :=
            if stance == "赞成" then { vp.voteCount with forV := vp.voteCount.forV + 1 }
            else if stance == "反对" then { vp.voteCount with againstV := vp.voteCount.againstV + 1 }
            else if stance == "弃权" then { vp.voteCount with abstainV := vp.voteCount.abstainV + 1 }
            else vp.voteCount
          arguments := vp.arguments ++
            [{ actor := role, content := response, stance := stance, round := currentRound }]
          proposedSolution := none } :: rest
    else vp :: applyResponse role viewpointId stance response currentRound rest

/-- The "同步观点回应到观点池" pass of `parallel_review_node`: for every
result and every `respond_to_viewpoint` tool call, update the pool copy. -/
def syncResponses (currentRound : Nat) (pool : List Viewpoint)
    (results : List ReviewResult) : List Viewpoint :=
  results.foldl
    (fun p r =>
      r.toolCalls.foldl
        (fun p2 tc =>
          if tc.tool == "respond_to_viewpoint" then
            applyResponse r.role tc.viewpointId tc.stance tc.response currentRound p2
          else p2)
        p)
    pool

/-- `parallel_review_node` from workflow/nodes.py.  If the stop flag fires
after some completed role, the node returns the round-entry `state`
unchanged (after checkpointing that same state).  Otherwise it returns the
state with this round's `ROLE_REVIEW` events appended, the response sync
applied to the pool, and the admitted new viewpoints appended. -/
def parallelReviewNode (state : DiscussionState) (results : List ReviewResult)
    (stopSignal : Nat → Bool) (now : Nat) : DiscussionState :=
  match reviewLoop stopSignal 0 [] results with
  | none => state
  | some reviewResults =>
    let newEvents := reviewResults.map (fun r => reviewEvent r state.currentRound now)
    let newViewpoints :=
      collectNewViewpoints state.viewpointPool.length state.currentRound reviewResults
    let updatedPool := syncResponses state.currentRound state.viewpointPool reviewResults
    { state with
        events := state.events ++ newEvents
        viewpointPool := updatedPool ++ newViewpoints }

/-!
## Vote analyzer (workflow/nodes.py `vote_analyzer_node`)
-/

/-- The stance list `vote_results` of `vote_analyzer_node`: the
`vote_result`s of this round's `ROLE_REVIEW` events whose metadata round tag
equals `current_round` and whose `vote_result` is truthy. -/
def roundStanceResults (s : DiscussionState) : List String :=
  (s.events.filter (fun e =>
      e.eventType == EventType.ROLE_REVIEW &&
      e.metadata.round == some s.currentRound &&
      truthyOptStr e.voteResult)).filterMap
    (fun e => match e.voteResult with
      | some v => if v ≠ "" then some v else none
      | none => none)

/-- The `needs_human` statistic of `vote_analyzer_node` with the hard-coded
ratio 0.3: `(no_votes / total_votes) > 0.3 if total_votes > 0 else False`,
the float comparison modelled as `10 * no > 3 * total`. -/
def voteAnalyzerNeedsHuman (s : DiscussionState) : Bool :=
  let voteResults := roundStanceResults s
  if 0 < voteResults.length then
    3 * voteResults.length < 10 * voteResults.countP (fun v => v == "反对")
  else false

/-- `vote_analyzer_node` from workflow/nodes.py: when this round has review
events with truthy stances, append the `ROUND_COMPLETE` statistics event and,
if `needs_human`, set `awaiting_human_input = True` and
`workflow_status = "待人类决策"`. -/
def voteAnalyzerNode (s : DiscussionState) (now : Nat) : DiscussionState :=
  let voteResults := roundStanceResults s
  if voteResults.isEmpty then s
  else
    let yesVotes := voteResults.countP (fun v => v == "赞成")
    let noVotes := voteResults.countP (fun v => v == "反对")
    let abstainVotes := voteResults.countP (fun v => v == "弃权")
    let needsHuman := voteAnalyzerNeedsHuman s
    let statsEvent : DiscussionEvent :=
      { eventType := EventType.ROUND_COMPLETE
        actor := "system"
        content := "轮次 " ++ toString s.currentRound ++ " 投票统计：赞成" ++
          toString yesVotes ++ "，反对" ++ toString noVotes ++ "，弃权" ++
          toString abstainVotes
        timestamp := now
        metadata :=
          { round := some s.currentRound
            rest := [("vote_summary",
                toString yesVotes ++ "/" ++ toString noVotes ++ "/" ++ toString abstainVotes),
              ("needs_human_intervention", toString needsHuman)] }
        voteResult := none
        targetIssue := none
        humanAction := none }
    let s1 := addEvent s statsEvent
    if needsHuman then
      { s1 with awaitingHumanInput := true, workflowStatus := "待人类决策" }
    else s1

/-!
## Session snapshot (状态保存/加载功能: `serialize_state` / `deserialize_state`)

The serialized JSON document is modelled by typed records mirroring the dict
layout that `serialize_state` actually writes.  Two points to note, read off
the source:
* the `"state"` dict written by `serialize_state` contains NO keys for
  `rfc_modification_applied`, `rfc_final_vote_results` or
  `rfc_final_vote_passed`, while `deserialize_state` reads those keys with
  `.get` defaults `False` / `None` / `None`;
* serialized viewpoints carry no `proposed_solution` key and
  `deserialize_state` rebuilds `Viewpoint` without that argument, so the
  field comes back as `None`.
`hasattr(event, ...)` is always true for the dataclass fields, so the three
optional event fields are always written.  `EventType(...)` and
`ViewpointStatus(...)` parses fall back to `ROLE_REVIEW` / `ACTIVE` /
`RESOLVED` on unknown strings; on the strings the serializer writes they
succeed.  ISO-8601 timestamps round-trip exactly (identity on the tag).
-/

/-- An `events_data` entry written by `serialize_state`. -/
structure SerializedEvent where
  eventType : String
  actor : String
  content : String
  timestamp : Nat
  metadata : EventMetadata
  voteResult : Option String
  targetIssue : Option String
  humanAction : Option String
deriving DecidableEq, Repr

/-- A serialized viewpoint dict (shared by `viewpoint_pool` and
`resolved_viewpoints`; no `proposed_solution` key is written). -/
structure SerializedViewpoint where
  id : String
  content : String
  evidence : List String
  proposer : String
  status : String
  voteCount : VoteCount
  createdRound : Nat
  resolvedRound : Option Nat
  solutions : List String
  arguments : List ArgumentRecord
deriving DecidableEq, Repr

/-- The full snapshot document: version header plus the `"state"` dict
exactly as `serialize_state` writes it. -/
structure SerializedState where
  version : String
  savedAt : Nat
  saveReason : String
  rfcContent : String
  modifiedRfcContent : Option String
  maxRounds : Nat
  currentRound : Nat
  currentFocus : String
  consensusPoints : List String
  openIssues : List String
  viewpointPool : List SerializedViewpoint
  resolvedViewpoints : List SerializedViewpoint
  awaitingHumanInput : Bool
  humanDecision : Option HumanDecision
  lastHumanAction : Option String
  timeoutCount : Nat
  workflowStatus : String
  events : List SerializedEvent
deriving DecidableEq, Repr

/-- The event dict built inside `serialize_state`. -/
def serializeEvent (e : DiscussionEvent) : SerializedEvent where
  eventType := e.eventType.value
  actor := e.actor
  content := e.content
  timestamp := e.timestamp
  metadata := e.metadata
  voteResult := e.voteResult
  targetIssue := e.targetIssue
  humanAction := e.humanAction

/-- The viewpoint dict built inside `serialize_state` (both pools use the
same field list; `proposed_solution` is not written). -/
def serializeViewpoint (vp : Viewpoint) : SerializedViewpoint where
  id := vp.id
  content := vp.content
  evidence := vp.evidence
  proposer := vp.proposer
  status := vp.status.value
  voteCount := vp.voteCount
  createdRound := vp.createdRound
  resolvedRound := vp.resolvedRound
  solutions := vp.solutions
  arguments := vp.arguments

/-- `serialize_state` from 状态保存/加载功能.  `now` models the
`datetime.now()` read for `saved_at`. -/
def serializeState (state : DiscussionState) (reason : String) (now : Nat) :
    SerializedState where
  version := "1.0"
  savedAt := now
  saveReason := reason
  rfcContent := state.rfcContent
  modifiedRfcContent := state.modifiedRfcContent
  maxRounds := state.maxRounds
  currentRound := state.currentRound
  currentFocus := state.currentFocus
  consensusPoints := state.consensusPoints
  openIssues := state.openIssues
  viewpointPool := state.viewpointPool.map serializeViewpoint
  resolvedViewpoints := state.resolvedViewpoints.map serializeViewpoint
  awaitingHumanInput := state.awaitingHumanInput
  humanDecision := state.humanDecision
  lastHumanAction := state.lastHumanAction
  timeoutCount := state.timeoutCount
  workflowStatus := state.workflowStatus
  events := state.events.map serializeEvent

/-- `EventType(event_type_str)` with the `except ValueError` fallback to
`ROLE_REVIEW`. -/
def parseEventType (s : String) : EventType :=
  if s == "role_review" then EventType.ROLE_REVIEW
  else if s == "vote" then EventType.VOTE
  else if s == "human" then EventType.HUMAN_INTERVENTION
  else if s == "human_decision" then EventType.HUMAN_DECISION
  else if s == "consensus" then EventType.CONSENSUS_REACHED
  else if s == "clarification" then EventType.CLARIFICATION
  else if s == "round_complete" then EventType.ROUND_COMPLETE
  else EventType.ROLE_REVIEW

/-- `ViewpointStatus(status_str)` with an `except ValueError` fallback
(`ACTIVE` for the pool loop, `RESOLVED` for the resolved loop). -/
def parseViewpointStatus (s : String) (fallback : ViewpointStatus) : ViewpointStatus :=
  if s == "active" then ViewpointStatus.active
  else if s == "resolved" then ViewpointStatus.resolved
  else if s == "rejected" then ViewpointStatus.rejected
  else fallback

/-- The event rebuild inside `deserialize_state`. -/
def deserializeEvent (e : SerializedEvent) : DiscussionEvent where
  eventType := parseEventType e.eventType
  actor := e.actor
  content := e.content
  timestamp := e.timestamp
  metadata := e.metadata
  voteResult := e.voteResult
  targetIssue := e.targetIssue
  humanAction := e.humanAction

/-- The viewpoint rebuild inside `deserialize_state`; the `Viewpoint(...)`
call passes no `proposed_solution`, so that field becomes `None`. -/
def deserializeViewpoint (fallback : ViewpointStatus) (vp : SerializedViewpoint) :
    Viewpoint where
  id := vp.id
  content := vp.content
  evidence := vp.evidence
  proposer := vp.proposer
  status := parseViewpointStatus vp.status fallback
  voteCount := vp.voteCount
  createdRound := vp.createdRound
  resolvedRound := vp.resolvedRound
  solutions := vp.solutions
  arguments := vp.arguments
  proposedSolution := none

/-- `deserialize_state` from 状态保存/加载功能.  The three RFC-vote keys are
read with `state_data.get(..., default)`; `serialize_state` never writes
them, so the defaults `False` / `None` / `None` always apply. -/
def deserializeState (d : SerializedState) : DiscussionState where
  events := d.events.map deserializeEvent
  rfcContent := d.rfcContent
  modifiedRfcContent := d.modifiedRfcContent
  maxRounds := d.maxRounds
  currentRound := d.currentRound
  currentFocus := d.currentFocus
  consensusPoints := d.consensusPoints
  openIssues := d.openIssues
  viewpointPool := d.viewpointPool.map (deserializeViewpoint ViewpointStatus.active)
  resolvedViewpoints := d.resolvedViewpoints.map (deserializeViewpoint ViewpointStatus.resolved)
  awaitingHumanInput := d.awaitingHumanInput
  humanDecision := d.humanDecision
  lastHumanAction := d.lastHumanAction
  timeoutCount := d.timeoutCount
  workflowStatus := d.workflowStatus
  rfcModificationApplied := false
  rfcFinalVoteResults := none
  rfcFinalVotePassed := none

/-!
## Operation wrapper and concrete sample data

`PoolOp` packages the two viewpoint-proposal operations named by the pool
invariant: a direct `add_viewpoint_to_pool` call and one execution of
`parallel_review_node` over a round's review results.  `applyOp` interprets
an operation on a state; a raising `add_viewpoint_to_pool` call leaves the
caller's state unchanged (the exception propagates before any mutation).
-/

/-- A viewpoint-proposal operation on the discussion state. -/
inductive PoolOp where
  | addVp (vp : Viewpoint)
  | review (results : List ReviewResult) (stopSignal : Nat → Bool) (now : Nat)

/-- Interpret one operation. -/
def applyOp (s : DiscussionState) : PoolOp → DiscussionState
  | PoolOp.addVp vp =>
    match addViewpointToPool s vp with
    | Except.ok s2 => s2
    | Except.error _ => s
  | PoolOp.review results stopSignal now => parallelReviewNode s results stopSignal now

/-- Whether an `Except` value is an error. -/
def isErr {ε α : Type} : Except ε α → Bool
  | Except.error _ => true
  | Except.ok _ => false

/-- An ACTIVE sample viewpoint with the given 赞成 / 反对 tallies (弃权 0),
used to state concrete boundary cases of the resolution rule. -/
def sampleActiveViewpoint (yes no : Nat) : Viewpoint :=
  { createViewpoint "vp-demo" "示例观点的核心内容" ["示例论据"] "architect" 1 with
      voteCount := { forV := yes, againstV := no, abstainV := 0 } }

/-- Demo viewpoints for pool-filling scenarios. -/
def vpDemo1 : Viewpoint :=
  createViewpoint "vp-1" "第一个示例观点内容" ["论据一"] "architect" 1

/-- Second demo viewpoint. -/
def vpDemo2 : Viewpoint :=
  createViewpoint "vp-2" "第二个示例观点内容" ["论据二"] "security" 1

/-- Third demo viewpoint. -/
def vpDemo3 : Viewpoint :=
  createViewpoint "vp-3" "第三个示例观点内容" ["论据三"] "cost_control" 1

/-- Fourth demo viewpoint (the one whose admission must be refused once the
pool already holds three). -/
def vpDemo4 : Viewpoint :=
  createViewpoint "vp-4" "第四个示例观点内容" ["论据四"] "innovator" 1

/-- A state whose active pool is exactly full (three viewpoints). -/
def sFullPool : DiscussionState :=
  { createInitialState "示例RFC文档" 10 with viewpointPool := [vpDemo1, vpDemo2, vpDemo3] }

/-- A state in which a human TERMINATE decision and an empty `open_issues`
list hold simultaneously. -/
def sTerminate : DiscussionState :=
  { createInitialState "示例RFC文档" 10 with
      humanDecision := some { action := some "终止" }
      openIssues := [] }

/-- One `ROLE_REVIEW` event of round `round` carrying the declared stance
`vote`, exactly as `parallel_review_node` records it. -/
def demoReviewEvent (actor vote : String) (round : Nat) : DiscussionEvent :=
  { eventType := EventType.ROLE_REVIEW
    actor := actor
    content := "示例评审发言"
    timestamp := 0
    metadata := { round := some round, rest := [] }
    voteResult := some vote
    targetIssue := none
    humanAction := none }

/-- Round 1, four cast stances, two of them 反对 (deadlock ratio 0.5 > 0.3). -/
def sDeadlockTwo : DiscussionState :=
  { createInitialState "示例RFC文档" 10 with
      events := [demoReviewEvent "architect" "反对" 1,
        demoReviewEvent "security" "反对" 1,
        demoReviewEvent "cost_control" "赞成" 1,
        demoReviewEvent "innovator" "赞成" 1] }

/-- Round 1, four cast stances, one of them 反对 (0.25 <= 0.3). -/
def sDeadlockOne : DiscussionState :=
  { createInitialState "示例RFC文档" 10 with
      events := [demoReviewEvent "architect" "反对" 1,
        demoReviewEvent "security" "赞成" 1,
        demoReviewEvent "cost_control" "赞成" 1,
        demoReviewEvent "innovator" "赞成" 1] }

/-- A reachable state whose RFC final-vote fields are set (as the final-vote
node sets them after a passing vote). -/
def sRfcVoted : DiscussionState :=
  { createInitialState "示例RFC文档" 10 with
      rfcModificationApplied := true
      rfcFinalVoteResults :=
        some [FinalVoteRecord.mk "architect" "RFC_FINAL_VOTE" "赞成" "方案完整"]
      rfcFinalVotePassed := some true
      workflowStatus := "RFC已通过" }

/-- A fresh tool context: the current role is set and has proposed nothing
this round. -/
def ctxFresh : ToolContext :=
  { viewpointsFromTool := []
    roleViewpointCounts := [("architect", 0)]
    currentRole := some "architect" }

/-- A completed review result of the first role of a round, carrying a
declared stance and one candidate viewpoint. -/
def reviewResultDemo1 : ReviewResult :=
  { role := "architect"
    content := "第一位角色完成的评审正文"
    vote := some "赞成"
    newViewpoints := [{ content := "缓存一致性保障不足", evidence := ["缺少失效策略"] }]
    toolCalls := [] }

/-- A completed review result of the second role of a round. -/
def reviewResultDemo2 : ReviewResult :=
  { role := "security"
    content := "第二位角色完成的评审正文"
    vote := some "反对"
    newViewpoints := []
    toolCalls := [] }

/-!
## Theorems
-/

/-- C2: Majority resolution rule.  For every ACTIVE viewpoint and every
`total_reviewers` count, `check_viewpoint_resolved` returns true iff
赞成-votes > 反对-votes and 赞成-votes > total_reviewers // 2 (strict
integer-division majority; ties never resolve); for every non-ACTIVE
viewpoint it returns true.  With `total_reviewers = 4`: for=3, against=1
resolves; for=2, against=2 does not; for=2, against=0 does not. -/
theorem majority_resolution_rule (vp : Viewpoint) (total : Nat) :
    (vp.status = ViewpointStatus.active →
      (checkViewpointResolved vp total = true ↔
        vp.voteCount.againstV < vp.voteCount.forV ∧ total / 2 < vp.voteCount.forV)) ∧
    (vp.status ≠ ViewpointStatus.active → checkViewpointResolved vp total = true) ∧
    checkViewpointResolved (sampleActiveViewpoint 3 1) 4 = true ∧
    checkViewpointResolved (sampleActiveViewpoint 2 2) 4 = false ∧
    checkViewpointResolved (sampleActiveViewpoint 2 0) 4 = false := by
  refine ⟨?_, ?_, by decide, by decide, by decide⟩
  · intro h
    simp [checkViewpointResolved, h]
  · intro h
    simp [checkViewpointResolved, h]

/-- Witness for C2 at the concrete viewpoint with for=3, against=1 and four
reviewers. -/
theorem majority_resolution_rule_witness :
    checkViewpointResolved (sampleActiveViewpoint 3 1) 4 = true ↔
      (sampleActiveViewpoint 3 1).voteCount.againstV <
          (sampleActiveViewpoint 3 1).voteCount.forV ∧
        4 / 2 < (sampleActiveViewpoint 3 1).voteCount.forV :=
  (majority_resolution_rule (sampleActiveViewpoint 3 1) 4).1 rfl

/-- C3: Router priority.  Whenever `human_decision` is a dict whose action is
终止 (terminate), `WorkflowRouter.route` returns EMERGENCY_STOP regardless of
every other field — in particular never FINAL_REPORT, even when
`open_issues` is empty at the same time.  The rules are evaluated in
ascending priority order inside `route`; rule 1 fires first here. -/
theorem router_terminate_overrides (m : Nat) (s : DiscussionState) (d : HumanDecision)
    (h1 : s.humanDecision = some d) (h2 : d.action = some "终止") :
    route m s = Except.ok RouteTarget.EMERGENCY_STOP ∧
    route m s ≠ Except.ok RouteTarget.FINAL_REPORT ∧
    route m s = Except.ok
      (if d.action == some "终止" then RouteTarget.EMERGENCY_STOP
       else if s.awaitingHumanInput then RouteTarget.HUMAN_INTERVENTION
       else if m ≤ s.currentRound then RouteTarget.FINAL_REPORT
       else if s.openIssues.isEmpty then RouteTarget.FINAL_REPORT
       else RouteTarget.ROUND_SUMMARY) := by
  refine ⟨?_, ?_, ?_⟩ <;> simp [route, h1, h2]

/-- Witness for C3: a concrete state with a TERMINATE human decision and an
empty `open_issues` list routes to EMERGENCY_STOP, not FINAL_REPORT. -/
theorem router_terminate_overrides_witness :
    route 10 sTerminate = Except.ok RouteTarget.EMERGENCY_STOP ∧
    route 10 sTerminate ≠ Except.ok RouteTarget.FINAL_REPORT ∧
    route 10 sTerminate = Except.ok
      (if (HumanDecision.mk (some "终止")).action == some "终止" then
        RouteTarget.EMERGENCY_STOP
       else if sTerminate.awaitingHumanInput then RouteTarget.HUMAN_INTERVENTION
       else if 10 ≤ sTerminate.currentRound then RouteTarget.FINAL_REPORT
       else if sTerminate.openIssues.isEmpty then RouteTarget.FINAL_REPORT
       else RouteTarget.ROUND_SUMMARY) :=
  router_terminate_overrides 10 sTerminate { action := some "终止" } rfl rfl

/-- C10: on every state produced by `create_initial_state` (whose
`human_decision` is `None`), `WorkflowRouter.route` does NOT return a
`RouteTarget`: rule 1 evaluates `s.get("human_decision", ...)` to `None`
and `None.get("action")` raises `AttributeError`. -/
theorem route_raises_on_initial_state (rfc : String) (maxRounds routerMaxRounds : Nat) :
    route routerMaxRounds (createInitialState rfc maxRounds) =
      Except.error "AttributeError" := rfl

/-- The response sync rewrites pool entries in place: `applyResponse`
preserves the pool length. -/
theorem applyResponse_length (role viewpointId stance response : String)
    (currentRound : Nat) (pool : List Viewpoint) :
    (applyResponse role viewpointId stance response currentRound pool).length =
      pool.length := by
  induction pool with
  | nil => rfl
  | cons vp rest ih =>
    simp only [applyResponse]
    split
    · simp
    · simp [ih]

/-- The inner tool-call fold of the response sync preserves the pool length. -/
theorem toolCallFold_length (role : String) (currentRound : Nat)
    (toolCalls : List ToolCall) (pool : List Viewpoint) :
    (toolCalls.foldl
      (fun p2 tc =>
        if tc.tool == "respond_to_viewpoint" then
          applyResponse role tc.viewpointId tc.stance tc.response currentRound p2
        else p2) pool).length = pool.length := by
  induction toolCalls generalizing pool with
  | nil => rfl
  | cons tc rest ih =>
    simp only [List.foldl_cons]
    split
    · rw [ih, applyResponse_length]
    · rw [ih]

/-- `syncResponses` preserves the pool length. -/
theorem syncResponses_length (currentRound : Nat) (pool : List Viewpoint)
    (results : List ReviewResult) :
    (syncResponses currentRound pool results).length = pool.length := by
  induction results generalizing pool with
  | nil => rfl
  | cons r rest ih =>
    simp only [syncResponses, List.foldl_cons] at *
    rw [ih, toolCallFold_length]

/-- The admission loop never grows the pool past the limit: if
`poolSize + acc.length` is within the limit on entry, it stays within the
limit on exit. -/
theorem collectLoop_bound (currentRound : Nat) (results : List ReviewResult) :
    ∀ (poolSize : Nat) (counts : List (String × Nat)) (acc : List Viewpoint),
      poolSize + acc.length ≤ VIEWPOINT_POOL_LIMIT →
      poolSize + (collectLoop poolSize currentRound results counts acc).length ≤
        VIEWPOINT_POOL_LIMIT := by
  induction results with
  | nil => intro poolSize counts acc h; simpa [collectLoop] using h
  | cons r rest ih =>
    intro poolSize counts acc h
    simp only [collectLoop]
    split
    · exact ih poolSize counts acc h
    · split
      · exact h
      · next hFull =>
        match hvps : r.newViewpoints with
        | [] => exact ih poolSize counts acc h
        | vpData :: _ =>
          apply ih
          simp only [List.length_append, List.length_cons, List.length_nil]
          omega

/-- Every single `applyOp` step preserves the pool-capacity invariant. -/
theorem applyOp_capacity (s : DiscussionState) (op : PoolOp)
    (h : s.viewpointPool.length ≤ VIEWPOINT_POOL_LIMIT) :
    (applyOp s op).viewpointPool.length ≤ VIEWPOINT_POOL_LIMIT := by
  cases op with
  | addVp vp =>
    by_cases hc : canAddViewpoint s = true
    · simp only [canAddViewpoint, decide_eq_true_eq] at hc
      simp only [applyOp, addViewpointToPool, canAddViewpoint, decide_eq_true_eq, hc,
        not_true, if_false, List.length_append, List.length_cons, List.length_nil]
      omega
    · simp [applyOp, addViewpointToPool, hc]
      exact h
  | review results stopSignal now =>
    simp only [applyOp, parallelReviewNode]
    split
    · exact h
    · next reviewResults heq =>
      simp only [List.length_append, syncResponses_length]
      have := collectLoop_bound s.currentRound reviewResults
        s.viewpointPool.length [] [] (by simpa using h)
      simpa [collectNewViewpoints] using this

/-- C1: Pool capacity invariant.  Starting from a state whose active pool
has at most 3 entries, every sequence of viewpoint-proposal operations
(direct `add_viewpoint_to_pool` calls and `parallel_review_node` rounds)
leaves at most 3 entries in the pool after every operation; and an attempt
to add to a full pool raises (`ValueError`, modelled as `Except.error`) and
leaves the state unchanged. -/
theorem pool_capacity_invariant (ops : List PoolOp) (s : DiscussionState) (vp : Viewpoint)
    (h : s.viewpointPool.length ≤ VIEWPOINT_POOL_LIMIT) :
    (ops.foldl applyOp s).viewpointPool.length ≤ VIEWPOINT_POOL_LIMIT ∧
    (VIEWPOINT_POOL_LIMIT ≤ s.viewpointPool.length →
      addViewpointToPool s vp = Except.error "观点池已满（最多3个观点）" ∧
      applyOp s (PoolOp.addVp vp) = s) := by
  constructor
  · induction ops generalizing s with
    | nil => exact h
    | cons op rest ih =>
      simp only [List.foldl_cons]
      exact ih (applyOp s op) (applyOp_capacity s op h)
  · intro hFull
    have hCan : ¬ canAddViewpoint s = true := by
      simp only [canAddViewpoint, decide_eq_true_eq, not_lt]
      exact hFull
    constructor
    · simp [addViewpointToPool, hCan]
    · simp [applyOp, addViewpointToPool, hCan]

/-- Witness for C1: from the empty initial pool, four successive
`add_viewpoint_to_pool` attempts leave at most three entries. -/
theorem pool_capacity_invariant_witness :
    (([PoolOp.addVp vpDemo1, PoolOp.addVp vpDemo2, PoolOp.addVp vpDemo3,
        PoolOp.addVp vpDemo4].foldl applyOp
          (createInitialState "示例RFC文档" 10)).viewpointPool.length ≤
        VIEWPOINT_POOL_LIMIT) ∧
    (VIEWPOINT_POOL_LIMIT ≤ (createInitialState "示例RFC文档" 10).viewpointPool.length →
      addViewpointToPool (createInitialState "示例RFC文档" 10) vpDemo1 =
        Except.error "观点池已满（最多3个观点）" ∧
      applyOp (createInitialState "示例RFC文档" 10) (PoolOp.addVp vpDemo1) =
        createInitialState "示例RFC文档" 10) :=
  pool_capacity_invariant _ _ _ (by decide)

/-- Reading a key just written returns the written value. -/
theorem lookupCount_setCount_self (counts : List (String × Nat)) (key : String) (v : Nat) :
    lookupCount (setCount counts key v) key = v := by
  induction counts with
  | nil => simp [setCount, lookupCount]
  | cons p rest ih =>
    simp only [setCount]
    split
    · next hp => simp [lookupCount]
    · next hp => simp [lookupCount, hp, ih]

/-- Writing one key leaves every other key's count unchanged. -/
theorem lookupCount_setCount_other (counts : List (String × Nat)) (key other : String)
    (v : Nat) (h : other ≠ key) :
    lookupCount (setCount counts key v) other = lookupCount counts other := by
  induction counts with
  | nil => simp [setCount, lookupCount, beq_iff_eq, Ne.symm h]
  | cons p rest ih =>
    simp only [setCount]
    split
    · next hp =>
      have hpk : p.1 = key := by simpa [beq_iff_eq] using hp
      simp [lookupCount, beq_iff_eq, Ne.symm h, hpk]
    · next hp => simp [lookupCount, ih]

/-- Per-role admission budget of the admission loop: relative to the entry
accumulator, the loop adds at most one viewpoint proposed by any given
actor, and none at all if that actor's counter is already at 1. -/
theorem collectLoop_countP (currentRound poolSize : Nat) (a : String)
    (results : List ReviewResult) :
    ∀ (counts : List (String × Nat)) (acc : List Viewpoint),
      (collectLoop poolSize currentRound results counts acc).countP
          (fun vp => vp.proposer == a) ≤
        acc.countP (fun vp => vp.proposer == a) +
          (if 1 ≤ lookupCount counts a then 0 else 1) := by
  induction results with
  | nil =>
    intro counts acc
    simp only [collectLoop]
    exact Nat.le_add_right _ _
  | cons r rest ih =>
    intro counts acc
    simp only [collectLoop]
    split
    · exact ih counts acc
    · split
      · exact Nat.le_add_right _ _
      · next hNotDone hSpace =>
        cases hvps : r.newViewpoints with
        | nil => exact ih counts acc
        | cons vpData tl =>
          dsimp only
          by_cases hra : r.role = a
          · subst hra
            have hbound := ih (setCount counts r.role 1)
              (acc ++ [createViewpoint "" vpData.content vpData.evidence r.role currentRound])
            rw [lookupCount_setCount_self] at hbound
            have hpr : ((createViewpoint "" vpData.content vpData.evidence r.role
                currentRound).proposer == r.role) = true := by simp [createViewpoint]
            simp only [List.countP_append, List.countP_cons, List.countP_nil, hpr,
              if_true, Nat.le_refl] at hbound
            rw [if_neg hNotDone]
            omega
          · have hbound := ih (setCount counts r.role 1)
              (acc ++ [createViewpoint "" vpData.content vpData.evidence r.role currentRound])
            rw [lookupCount_setCount_other counts r.role a 1 (Ne.symm hra)] at hbound
            have hpr : ((createViewpoint "" vpData.content vpData.evidence r.role
                currentRound).proposer == a) = false := by
              simp [createViewpoint, hra]
            simp [List.countP_append, List.countP_cons, hpr] at hbound
            omega

/-- Provenance of admitted viewpoints: each one beyond the entry accumulator
comes from some review result, carries that result's role as proposer, and
is built from the FIRST candidate viewpoint of that result. -/
theorem collectLoop_mem (currentRound poolSize : Nat) (results : List ReviewResult) :
    ∀ (counts : List (String × Nat)) (acc : List Viewpoint) (vp : Viewpoint),
      vp ∈ collectLoop poolSize currentRound results counts acc →
      vp ∈ acc ∨ ∃ r ∈ results, r.role = vp.proposer ∧
        ∃ hd, r.newViewpoints.head? = some hd ∧
          vp = createViewpoint "" hd.content hd.evidence r.role currentRound := by
  induction results with
  | nil =>
    intro counts acc vp hmem
    simp only [collectLoop] at hmem
    exact Or.inl hmem
  | cons r rest ih =>
    intro counts acc vp hmem
    simp only [collectLoop] at hmem
    split at hmem
    · rcases ih counts acc vp hmem with h | ⟨r2, hr2, hrest⟩
      · exact Or.inl h
      · exact Or.inr ⟨r2, List.mem_cons_of_mem _ hr2, hrest⟩
    · split at hmem
      · exact Or.inl hmem
      · revert hmem
        match hvps : r.newViewpoints with
        | [] =>
          intro hmem
          rcases ih counts acc vp hmem with h | ⟨r2, hr2, hrest⟩
          · exact Or.inl h
          · exact Or.inr ⟨r2, List.mem_cons_of_mem _ hr2, hrest⟩
        | vpData :: tl =>
          intro hmem
          rcases ih (setCount counts r.role 1)
            (acc ++ [createViewpoint "" vpData.content vpData.evidence r.role currentRound])
            vp hmem with h | ⟨r2, hr2, hrest⟩
          · rcases List.mem_append.mp h with h2 | h2
            · exact Or.inl h2
            · rcases List.mem_singleton.mp h2 with rfl
              exact Or.inr ⟨r, List.mem_cons_self _ _,
                rfl, vpData, by rw [hvps]; rfl, rfl⟩
          · exact Or.inr ⟨r2, List.mem_cons_of_mem _ hr2, hrest⟩

/-- C7: Per-role proposal cap.  In each round's admission loop, at most one
new viewpoint admitted to the pool carries any given actor as proposer, no
matter how many candidate viewpoints that actor's review output contains;
and every admitted viewpoint comes from the FIRST candidate of its
proposer's result (first one wins, the rest are discarded). -/
theorem per_role_proposal_cap (poolSize currentRound : Nat)
    (results : List ReviewResult) (a : String) :
    (collectNewViewpoints poolSize currentRound results).countP
        (fun vp => vp.proposer == a) ≤ 1 ∧
    (∀ vp ∈ collectNewViewpoints poolSize currentRound results,
      ∃ r ∈ results, r.role = vp.proposer ∧
        ∃ hd, r.newViewpoints.head? = some hd ∧
          vp = createViewpoint "" hd.content hd.evidence r.role currentRound) := by
  constructor
  · have := collectLoop_countP currentRound poolSize a results [] []
    simpa [collectNewViewpoints, lookupCount, List.find?] using this
  · intro vp hmem
    rcases collectLoop_mem currentRound poolSize results [] [] vp hmem with h | h
    · cases h
    · exact h

/-- Witness for C7: a round in which the first role's output contains two
candidate viewpoints still admits at most one viewpoint per actor, built
from the first candidate. -/
theorem per_role_proposal_cap_witness :
    (collectNewViewpoints 0 1 [{ reviewResultDemo1 with
        newViewpoints := [{ content := "缓存一致性保障不足", evidence := ["缺少失效策略"] },
          { content := "第二个候选观点", evidence := ["论据"] }] },
      reviewResultDemo2]).countP (fun vp => vp.proposer == "architect") ≤ 1 ∧
    (∀ vp ∈ collectNewViewpoints 0 1 [{ reviewResultDemo1 with
        newViewpoints := [{ content := "缓存一致性保障不足", evidence := ["缺少失效策略"] },
          { content := "第二个候选观点", evidence := ["论据"] }] },
      reviewResultDemo2],
      ∃ r ∈ [{ reviewResultDemo1 with
          newViewpoints := [{ content := "缓存一致性保障不足", evidence := ["缺少失效策略"] },
            { content := "第二个候选观点", evidence := ["论据"] }] },
        reviewResultDemo2], r.role = vp.proposer ∧
          ∃ hd, r.newViewpoints.head? = some hd ∧
            vp = createViewpoint "" hd.content hd.evidence r.role 1) :=
  per_role_proposal_cap 0 1 _ "architect"

/-- If the stop flag is observed after any of the supplied roles, the role
loop is abandoned. -/
theorem reviewLoop_none (stopSignal : Nat → Bool) (results : List ReviewResult) :
    ∀ (i : Nat) (acc : List ReviewResult),
      (∃ j, j < results.length ∧ stopSignal (i + j) = true) →
      reviewLoop stopSignal i acc results = none := by
  induction results with
  | nil =>
    intro i acc h
    rcases h with ⟨j, hj, _⟩
    exact absurd hj (by simp)
  | cons r rest ih =>
    intro i acc h
    simp only [reviewLoop]
    by_cases hstop : stopSignal i = true
    · simp [hstop]
    · rw [if_neg hstop]
      rcases h with ⟨j, hj, hsig⟩
      cases j with
      | zero => exact absurd hsig (by simpa using hstop)
      | succ j2 =>
        apply ih (i + 1)
        refine ⟨j2, by simpa using hj, ?_⟩
        rw [show i + 1 + j2 = i + (j2 + 1) by omega]
        exact hsig

/-- C9 (corrected): when the cooperative stop flag is observed after some
role completes, `parallel_review_node` checkpoints and returns the
round-entry `state` — NOT a state containing the completed roles' output:
its events and pool are exactly those the round started with, so the debate
history of every role that completed this round is discarded along with the
in-flight role's. -/
theorem parallel_review_stop_returns_entry_state (s : DiscussionState)
    (results : List ReviewResult) (stopSignal : Nat → Bool) (now : Nat)
    (h : ∃ j, j < results.length ∧ stopSignal j = true) :
    parallelReviewNode s results stopSignal now = s ∧
    (parallelReviewNode s results stopSignal now).events = s.events ∧
    (parallelReviewNode s results stopSignal now).viewpointPool = s.viewpointPool := by
  have hnone : reviewLoop stopSignal 0 [] results = none := by
    apply reviewLoop_none
    rcases h with ⟨j, hj, hsig⟩
    exact ⟨j, hj, by simpa using hsig⟩
  refine ⟨?_, ?_, ?_⟩ <;> simp [parallelReviewNode, hnone]

/-- Witness for C9's amended statement: stop observed after the first (and
only) role of a round. -/
theorem parallel_review_stop_returns_entry_state_witness :
    parallelReviewNode sDeadlockOne [reviewResultDemo1] (fun _ => true) 0 = sDeadlockOne ∧
    (parallelReviewNode sDeadlockOne [reviewResultDemo1] (fun _ => true) 0).events =
      sDeadlockOne.events ∧
    (parallelReviewNode sDeadlockOne [reviewResultDemo1] (fun _ => true) 0).viewpointPool =
      sDeadlockOne.viewpointPool :=
  parallel_review_stop_returns_entry_state sDeadlockOne [reviewResultDemo1]
    (fun _ => true) 0 ⟨0, by decide, rfl⟩

/-- Counterexample to C9 as stated: the first role (architect) COMPLETES its
review — the stop flag is only observed at the check that runs after its
result was appended — yet the returned (and checkpointed) state is the
round-entry state with NO events and an empty pool: the completed role's
review event, stance and candidate viewpoint are all lost, contradicting
the claim that completed roles' debate history survives. -/
theorem stop_discards_completed_role_output :
    parallelReviewNode (createInitialState "示例RFC文档" 10)
        [reviewResultDemo1, reviewResultDemo2] (fun i => i == 0) 0 =
      createInitialState "示例RFC文档" 10 ∧
    (parallelReviewNode (createInitialState "示例RFC文档" 10)
        [reviewResultDemo1, reviewResultDemo2] (fun i => i == 0) 0).events = [] ∧
    (parallelReviewNode (createInitialState "示例RFC文档" 10)
        [reviewResultDemo1, reviewResultDemo2] (fun i => i == 0) 0).viewpointPool = [] := by
  refine ⟨rfl, rfl, rfl⟩

/-- Counterexample to C6 as stated: in a round with four cast review stances
of which two are 反对 (0.5 > 0.3), the claim makes both functions true; the
vote analyzer's `needs_human` is indeed true, but
`should_human_intervene` is false — it tallies events of type VOTE (of which
there are none here), not this round's `ROLE_REVIEW` stances, so the two
functions disagree and the claimed characterization of
`should_human_intervene` fails. -/
theorem deadlock_functions_disagree :
    voteAnalyzerNeedsHuman sDeadlockTwo = true ∧
    shouldHumanIntervene sDeadlockTwo = false := by
  refine ⟨by decide, by decide⟩

/-- C6 (corrected): the vote analyzer's `needs_human` is true iff, among
this round's `ROLE_REVIEW` events with a truthy stance, 反对 / total > 0.3
(false when no such stance exists), and it drives `awaiting_human_input`;
`should_human_intervene`, however, is true iff among the truthy stances of
ALL events of type VOTE in the whole log (any round) 反对 / total > 0.3.
Boundary: four stances with two 反对 trip the analyzer; with one 反对 they
do not. -/
theorem deadlock_detection (s : DiscussionState) (now : Nat) :
    (voteAnalyzerNeedsHuman s = true ↔
      roundStanceResults s ≠ [] ∧
        3 * (roundStanceResults s).length <
          10 * (roundStanceResults s).countP (fun v => v == "反对")) ∧
    (shouldHumanIntervene s = true ↔
      allCastStances s ≠ [] ∧
        3 * (allCastStances s).length <
          10 * (allCastStances s).countP (fun v => v == "反对")) ∧
    (voteAnalyzerNode s now).awaitingHumanInput =
      (s.awaitingHumanInput || voteAnalyzerNeedsHuman s) ∧
    voteAnalyzerNeedsHuman sDeadlockTwo = true ∧
    voteAnalyzerNeedsHuman sDeadlockOne = false := by
  refine ⟨?_, ?_, ?_, by decide, by decide⟩
  · by_cases hlen : 0 < (roundStanceResults s).length
    · simp only [voteAnalyzerNeedsHuman, if_pos hlen, decide_eq_true_eq]
      constructor
      · intro h
        exact ⟨List.length_pos.mp hlen, h⟩
      · exact fun h => h.2
    · have hnil : roundStanceResults s = [] := by
        simpa using List.length_eq_zero.mp (by omega)
      simp [voteAnalyzerNeedsHuman, hlen, hnil]
  · have key : allCastStances s =
        (s.events.filter (fun e => e.eventType.value == "vote")).filterMap
          (fun e => match e.voteResult with
            | some v => if v ≠ "" then some v else none
            | none => none) := rfl
    simp only [shouldHumanIntervene]
    split
    · next hemp =>
      have hA : allCastStances s = [] := by
        rw [key, List.isEmpty_iff.mp hemp]
        rfl
      simp [hA]
    · next hemp =>
      split
      · next hvr =>
        have hA : allCastStances s = [] := by
          rw [key]
          exact List.isEmpty_iff.mp hvr
        simp [hA]
      · next hvr =>
        rw [← key] at hvr ⊢
        simp only [decide_eq_true_eq]
        constructor
        · intro h
          refine ⟨?_, h⟩
          intro hnil
          rw [hnil] at hvr
          exact hvr rfl
        · exact fun h => h.2
  · simp only [voteAnalyzerNode]
    split
    · next hemp =>
      have hfalse : voteAnalyzerNeedsHuman s = false := by
        simp only [voteAnalyzerNeedsHuman]
        rw [List.isEmpty_iff.mp hemp]
        simp
      simp [hfalse]
    · by_cases hnh : voteAnalyzerNeedsHuman s = true
      · simp [hnh]
      · have hnh2 : voteAnalyzerNeedsHuman s = false := by
          simpa using hnh
        simp [hnh2, addEvent]

/-- Counterexample to C5 as stated: with the default parameters
(`yes_votes_needed = 2`, `no_votes_limit = 2`, `require_yes_over_no = True`),
the tally yes=4, no=2 satisfies `no >= no_votes_limit`, so the claim makes
it ELIMINATE regardless of the yes count — but `check_approval` evaluates
the pass condition FIRST and returns PASS (approved). -/
theorem check_approval_not_eliminated_despite_no_limit :
    (2 : Nat) ≤ 2 ∧
    checkApproval 4 2 10 1 2 2 true =
      { approved := true, finished := true, reason := "通过审核" } ∧
    checkApproval 4 2 10 1 2 2 true ≠
      { approved := false, finished := true, reason := "反对票过多" } := by
  refine ⟨by decide, rfl, by decide⟩

/-- C5 (corrected): `check_approval` returns PASS iff
`yes >= yes_votes_needed` and (`require_yes_over_no` is false or
`yes > no`); it returns ELIMINATE iff the pass condition does NOT hold and
`no >= no_votes_limit` (the pass check runs first, so a qualifying yes vote
overrides the no-vote limit); otherwise it finalizes as not-approved when
`current_round >= max_rounds`, else it continues.  Boundary cases:
yes=2, no=1 with defaults approves; yes=2, no=2 does not approve (it
eliminates, since no = no_votes_limit); no=2 with limit 2 and a
non-passing yes count eliminates; yes=1, no=1 at
current_round = max_rounds = 10 finishes not approved. -/
theorem approval_policy (yes no maxRounds currentRound yesNeeded noLimit : Nat)
    (req : Bool) :
    ((checkApproval yes no maxRounds currentRound yesNeeded noLimit req).approved =
        true ↔ yesNeeded ≤ yes ∧ (req = false ∨ no < yes)) ∧
    (checkApproval yes no maxRounds currentRound yesNeeded noLimit req =
        { approved := false, finished := true, reason := "反对票过多" } ↔
      ¬(yesNeeded ≤ yes ∧ (req = false ∨ no < yes)) ∧ noLimit ≤ no) ∧
    (checkApproval yes no maxRounds currentRound yesNeeded noLimit req =
        { approved := false, finished := true, reason := "达到最大轮次" } ↔
      ¬(yesNeeded ≤ yes ∧ (req = false ∨ no < yes)) ∧ no < noLimit ∧
        maxRounds ≤ currentRound) ∧
    (checkApproval yes no maxRounds currentRound yesNeeded noLimit req =
        { approved := false, finished := false, reason := "继续辩论" } ↔
      ¬(yesNeeded ≤ yes ∧ (req = false ∨ no < yes)) ∧ no < noLimit ∧
        currentRound < maxRounds) ∧
    checkApproval 2 1 10 1 2 2 true =
      { approved := true, finished := true, reason := "通过审核" } ∧
    (checkApproval 2 2 10 1 2 2 true).approved = false ∧
    checkApproval 1 2 10 1 2 2 true =
      { approved := false, finished := true, reason := "反对票过多" } ∧
    checkApproval 1 1 10 10 2 2 true =
      { approved := false, finished := true, reason := "达到最大轮次" } := by
  have hpass : (yesNeeded ≤ yes && (!req || no < yes)) = true ↔
      yesNeeded ≤ yes ∧ (req = false ∨ no < yes) := by
    cases req <;> simp [decide_eq_true_eq]
  refine ⟨?_, ?_, ?_, ?_, rfl, by decide, rfl, rfl⟩ <;>
    · simp only [checkApproval]
      split
      · next hc =>
        rw [hpass] at hc
        simp [hc]
      · next hc =>
        rw [hpass] at hc
        split
        · next hno => simp [hc, hno]
        · next hno =>
          split
          · next hmr => simp [hc, hmr, Nat.lt_of_not_le hno]
          · next hmr =>
            simp [hc, Nat.lt_of_not_le hno, Nat.lt_of_not_le hmr, Nat.not_le.mp hmr]

/-- Counterexample to C8 as stated: a proposal whose content is long enough
(well over 5 characters after stripping), whose evidence list is non-empty,
made by a role with no prior proposal this round — none of the claim's three
failure conditions holds (the tool does not even consult pool capacity) —
is nevertheless rejected, because its stance 中立 is not one of
赞成 / 反对 / 弃权. -/
theorem propose_fails_outside_claimed_conditions :
    proposeViewpoint ctxFresh "这个提案缺少回滚方案" ["部署章节没有回滚步骤"] "中立" =
      Except.error "立场必须是以下之一：赞成、反对、弃权" ∧
    ((pyStrip "这个提案缺少回滚方案").length < 5) = False ∧
    (["部署章节没有回滚步骤"] : List String) ≠ [] ∧
    lookupCount ctxFresh.roleViewpointCounts "architect" = 0 := by
  refine ⟨by rfl, by decide, by decide, by rfl⟩

/-- C8 (corrected): `propose_viewpoint` fails with an error message —
leaving the tool context, and hence the pool, unchanged — iff the content is
empty, or shorter than 5 characters after stripping leading/trailing
whitespace, or the proposing role already proposed this round, or the stance
is not one of 赞成 / 反对 / 弃权, or the evidence list is empty; pool
capacity is NOT among its checks.  On success it records the proposal
(evidence truncated to 3) for later admission.  Pool capacity is enforced by
`add_viewpoint_to_pool`, which errors exactly on a full pool and leaves the
state unchanged, and otherwise appends; and every viewpoint built by
`create_viewpoint` starts ACTIVE with zero vote counts. -/
theorem propose_validation (ctx : ToolContext) (content : String)
    (evidence : List String) (stance : String) (s : DiscussionState) (vp : Viewpoint)
    (vpId vpContent vpProposer : String) (vpEvidence : List String) (vpRound : Nat) :
    (isErr (proposeViewpoint ctx content evidence stance) = true ↔
      content = "" ∨ (pyStrip content).length < 5 ∨
        1 ≤ lookupCount ctx.roleViewpointCounts (ctx.currentRole.getD "unknown") ∨
        (stance ≠ "赞成" ∧ stance ≠ "反对" ∧ stance ≠ "弃权") ∨ evidence = []) ∧
    (match proposeViewpoint ctx content evidence stance with
      | Except.error _ => True
      | Except.ok (ctx2, _) =>
        ctx2.viewpointsFromTool = ctx.viewpointsFromTool ++
          [{ content := content, evidence := evidence.take 3, stance := stance,
             proposer := ctx.currentRole.getD "unknown" }]) ∧
    (match addViewpointToPool s vp with
      | Except.error msg =>
        VIEWPOINT_POOL_LIMIT ≤ s.viewpointPool.length ∧ msg = "观点池已满（最多3个观点）"
      | Except.ok s2 =>
        s.viewpointPool.length < VIEWPOINT_POOL_LIMIT ∧
          s2 = { s with viewpointPool := s.viewpointPool ++ [vp] }) ∧
    (createViewpoint vpId vpContent vpEvidence vpProposer vpRound).status =
      ViewpointStatus.active ∧
    (createViewpoint vpId vpContent vpEvidence vpProposer vpRound).voteCount =
      { forV := 0, againstV := 0, abstainV := 0 } := by
  refine ⟨?_, ?_, ?_, rfl, rfl⟩
  · simp only [proposeViewpoint]
    split
    · next hc => simp [isErr, hc]
    · next hc =>
      split
      · next hlen => simp [isErr, hc, hlen]
      · next hlen =>
        split
        · next hcnt => simp [isErr, hc, hlen, hcnt]
        · next hcnt =>
          split
          · next hst =>
            simp only [Bool.not_eq_true', Bool.or_eq_false_iff, beq_eq_false_iff_ne] at hst
            simp [isErr, hc, hlen, hcnt, hst.1.1, hst.1.2, hst.2]
          · next hst =>
            simp only [Bool.not_eq_true, Bool.not_eq_false', Bool.or_eq_true,
              beq_iff_eq] at hst
            have hst2 : ¬(stance ≠ "赞成" ∧ stance ≠ "反对" ∧ stance ≠ "弃权") := by
              rcases hst with (h | h) | h <;> simp [h]
            split
            · next hev =>
              simp only [List.isEmpty_iff] at hev
              simp [isErr, hc, hlen, hcnt, hst2, hev]
            · next hev =>
              simp only [List.isEmpty_iff] at hev
              simp [isErr, hc, hlen, hcnt, hst2, hev]
  · rcases hok : proposeViewpoint ctx content evidence stance with e | pair
    · trivial
    · obtain ⟨ctx2, msg⟩ := pair
      simp only [proposeViewpoint] at hok
      split at hok
      · simp at hok
      · split at hok
        · simp at hok
        · split at hok
          · simp at hok
          · split at hok
            · simp at hok
            · split at hok
              · simp at hok
              · simp only [Except.ok.injEq, Prod.mk.injEq] at hok
                obtain ⟨hctx, _⟩ := hok
                rw [← hctx]
  · rcases hadd : addViewpointToPool s vp with msg | s2
    · simp only [addViewpointToPool] at hadd
      split at hadd
      · next hfull =>
        simp only [canAddViewpoint, decide_eq_true_eq] at hfull
        simp only [Except.error.injEq] at hadd
        exact ⟨Nat.le_of_not_lt (by simpa using hfull), hadd.symm⟩
      · simp at hadd
    · simp only [addViewpointToPool] at hadd
      split at hadd
      · simp at hadd
      · next hfull =>
        simp only [canAddViewpoint, decide_eq_true_eq, not_not] at hfull
        simp only [Except.ok.injEq] at hadd
        exact ⟨hfull, hadd.symm⟩

/-- Serializing and deserializing one event is the identity (the enum value
string parses back to the same enum member; every other field is copied). -/
theorem roundtrip_event (e : DiscussionEvent) :
    deserializeEvent (serializeEvent e) = e := by
  cases e with
  | mk et a c t m vr ti ha => cases et <;> rfl

/-- Serializing and deserializing one viewpoint restores every field except
`proposed_solution`, which the serializer never writes and the deserializer
leaves at `None`. -/
theorem roundtrip_viewpoint (fallback : ViewpointStatus) (vp : Viewpoint) :
    deserializeViewpoint fallback (serializeViewpoint vp) =
      { vp with proposedSolution := none } := by
  cases vp with
  | mk id c ev p st vc cr rr sol args ps => cases st <;> rfl

/-- C4 is a code bug: `deserialize_state ∘ serialize_state` restores every
field of every reachable `DiscussionState` EXCEPT the three RFC final-vote
fields (`rfc_modification_applied`, `rfc_final_vote_results`,
`rfc_final_vote_passed`), which reset to their defaults because
`serialize_state` never writes them while `deserialize_state` reads them
with `.get` defaults (and except each viewpoint's never-populated
`proposed_solution`, which also resets to `None`).  In particular the
round trip is NOT the identity on a reachable state with
`rfc_modification_applied = True`. -/
theorem snapshot_roundtrip_drops_rfc_fields (s : DiscussionState)
    (reason : String) (now : Nat) :
    deserializeState (serializeState s reason now) =
      { s with
          viewpointPool :=
            s.viewpointPool.map (fun vp => { vp with proposedSolution := none })
          resolvedViewpoints :=
            s.resolvedViewpoints.map (fun vp => { vp with proposedSolution := none })
          rfcModificationApplied := false
          rfcFinalVoteResults := none
          rfcFinalVotePassed := none } ∧
    deserializeState (serializeState sRfcVoted "manual" 0) ≠ sRfcVoted := by
  constructor
  · cases s with
    | mk ev rfc mod mr cr cf cp oi pool res aw hd lha tc ws rma rfv rfp =>
      simp [deserializeState, serializeState, List.map_map, Function.comp_def,
        roundtrip_event, roundtrip_viewpoint]
  · intro h
    have hproj := congrArg DiscussionState.rfcModificationApplied h
    simp [deserializeState, serializeState, sRfcVoted, createInitialState] at hproj
